import Mathlib

/-!
Verification of the Avoure content-moderation core: the pre-submission
content screener (src/unnamed/part_001) and the submission status state
machine implemented by the moderation views (ModerateContent, AdminUpload,
UserBlogs) together with the submission path (SubmitBlog.tsx).
-/

namespace Avoure

/-- Verdict record produced by the screener and stored on a submission. -/
structure ModerationResult where
  status : String
  flagged : Bool
  flag_reason : Option String
  deriving Repr, DecidableEq

/-- Model of JS String.prototype.toLowerCase: lower each character. -/
def lowerStr (s : String) : String := String.mk (s.data.map Char.toLower)

/-- Model of JS String.prototype.includes: substring containment. -/
def containsStr (s pat : String) : Bool := decide (pat.data <:+: s.data)

/-- Model of JS String.prototype.trim: drop leading and trailing whitespace. -/
def trimStr (s : String) : String :=
  String.mk (((s.data.dropWhile Char.isWhitespace).reverse.dropWhile Char.isWhitespace).reverse)

/-- Allow-listed topic keywords, src/unnamed/part_001 lines 6-17. -/
def allowedTopics : List String :=
  ["fashion", "beauty", "style", "makeup", "lifestyle", "shopping",
   "skincare", "outfit", "luxury", "trend"]

/-- The lowered concatenation of title, content and category built by
moderateBlogContent (src/unnamed/part_001 line 31). -/
def fullTextOf (title content category : String) : String :=
  lowerStr (title ++ " " ++ content ++ " " ++ category)

/-- moderateBlogContent from src/unnamed/part_001, parameterized by the
external bad-words filter predicate (the call filter.isProfane). -/
def moderateBlogContent (isProfane : String → Bool) (title content category : String) :
    ModerationResult :=
  if isProfane (fullTextOf title content category) then
    { status := "rejected", flagged := true,
      flag_reason := some "Profanity or inappropriate language detected." }
  else if !(allowedTopics.any fun keyword => containsStr (fullTextOf title content category) keyword) then
    { status := "rejected", flagged := true,
      flag_reason := some "Content is not related to fashion, beauty, or lifestyle." }
  else if (trimStr content).length < 100 then
    { status := "rejected", flagged := true,
      flag_reason := some "Content too short or lacks substance." }
  else
    { status := "pending", flagged := false, flag_reason := none }

/-- Modelled from the spec: the bad-words denylist detector used by the
screener is an external dependency not present in the repository; per the
spec it is a denylist-based detector, true when the text contains some
denylisted term, case-insensitively. -/
def isProfaneWith (denylist : List String) (s : String) : Bool :=
  denylist.any fun w => containsStr (lowerStr s) (lowerStr w)

end Avoure

namespace Avoure

/-- C1: whenever the concatenation of title, content and category contains a
denylisted term (case-insensitively), moderateBlogContent returns the
rejected, flagged verdict with the profanity reason, regardless of topic
keywords or content length: the later checks are short-circuited. -/
theorem c1_profanity_short_circuit (denylist : List String) (title content category : String)
    (h : isProfaneWith denylist (fullTextOf title content category) = true) :
    moderateBlogContent (isProfaneWith denylist) title content category =
      { status := "rejected", flagged := true,
        flag_reason := some "Profanity or inappropriate language detected." } := by
  simp [moderateBlogContent, h]

/-- C1 witness: a concrete on-topic input containing a denylisted term is
rejected with the profanity reason. -/
theorem c1_profanity_short_circuit_witness :
    isProfaneWith ["damn"] (fullTextOf "Damn looks" "fashion and style tips" "cars") = true ∧
    moderateBlogContent (isProfaneWith ["damn"]) "Damn looks" "fashion and style tips" "cars" =
      { status := "rejected", flagged := true,
        flag_reason := some "Profanity or inappropriate language detected." } :=
  ⟨by decide,
   c1_profanity_short_circuit ["damn"] "Damn looks" "fashion and style tips" "cars" (by decide)⟩

/-- C2: when the profanity detector does not fire and the lowered
concatenation contains none of the ten allow-listed keywords,
moderateBlogContent returns the rejected, flagged verdict with the
relevance reason. -/
theorem c2_relevance_rejection (isProfane : String → Bool) (title content category : String)
    (h1 : isProfane (fullTextOf title content category) = false)
    (h2 : (allowedTopics.any fun keyword =>
      containsStr (fullTextOf title content category) keyword) = false) :
    moderateBlogContent isProfane title content category =
      { status := "rejected", flagged := true,
        flag_reason := some "Content is not related to fashion, beauty, or lifestyle." } := by
  simp [moderateBlogContent, h1, h2]

/-- C2 witness: a clean but off-topic input is rejected with the relevance
reason. -/
theorem c2_relevance_rejection_witness :
    isProfaneWith ["badword"] (fullTextOf "Cars and Engines" "Engines and horsepower." "cars") = false ∧
    (allowedTopics.any fun keyword =>
      containsStr (fullTextOf "Cars and Engines" "Engines and horsepower." "cars") keyword) = false ∧
    moderateBlogContent (isProfaneWith ["badword"]) "Cars and Engines" "Engines and horsepower." "cars" =
      { status := "rejected", flagged := true,
        flag_reason := some "Content is not related to fashion, beauty, or lifestyle." } :=
  ⟨by decide, by decide,
   c2_relevance_rejection (isProfaneWith ["badword"]) "Cars and Engines"
     "Engines and horsepower." "cars" (by decide) (by decide)⟩

/-- C3: on inputs passing the profanity and relevance checks, the verdict is
the length rejection exactly when the trimmed content is shorter than 100
characters, and otherwise exactly the pending, unflagged verdict; in either
case the status is never published. -/
theorem c3_length_check_or_pending (isProfane : String → Bool) (title content category : String)
    (h1 : isProfane (fullTextOf title content category) = false)
    (h2 : (allowedTopics.any fun keyword =>
      containsStr (fullTextOf title content category) keyword) = true) :
    moderateBlogContent isProfane title content category =
      (if (trimStr content).length < 100 then
        { status := "rejected", flagged := true,
          flag_reason := some "Content too short or lacks substance." }
      else { status := "pending", flagged := false, flag_reason := none }) ∧
    (moderateBlogContent isProfane title content category).status ≠ "published" := by
  constructor
  · simp [moderateBlogContent, h1, h2]
  · simp only [moderateBlogContent, h1, h2]
    by_cases hl : (trimStr content).length < 100
    · simp [hl]
    · simp [hl]

/-- C3 witness: a clean, on-topic but short submission is rejected with the
length reason. -/
theorem c3_length_check_or_pending_witness :
    isProfaneWith ["badword"] (fullTextOf "My Look" "a short fashion note" "fashion") = false ∧
    (allowedTopics.any fun keyword =>
      containsStr (fullTextOf "My Look" "a short fashion note" "fashion") keyword) = true ∧
    moderateBlogContent (isProfaneWith ["badword"]) "My Look" "a short fashion note" "fashion" =
      { status := "rejected", flagged := true,
        flag_reason := some "Content too short or lacks substance." } := by
  refine ⟨by decide, by decide, ?_⟩
  have h := c3_length_check_or_pending (isProfaneWith ["badword"]) "My Look"
    "a short fashion note" "fashion" (by decide) (by decide)
  rw [h.1]
  decide

/-- Each allow-listed keyword is already lower-case, so lowering fixes it. -/
theorem lower_of_mem_allowedTopics {cat : String} (h : cat ∈ allowedTopics) :
    lowerStr cat = cat := by
  fin_cases h <;> rfl

/-- When the category is an allow-listed keyword, the lowered concatenation
contains it as a substring. -/
theorem containsStr_fullText_category (title content cat : String) (h : cat ∈ allowedTopics) :
    containsStr (fullTextOf title content cat) cat = true := by
  apply decide_eq_true
  have hdata : (fullTextOf title content cat).data =
      ((title ++ " " ++ content ++ " ").data.map Char.toLower) ++ cat.data := by
    calc (fullTextOf title content cat).data
        = ((title ++ " " ++ content ++ " ").data ++ cat.data).map Char.toLower := by
          rw [show (fullTextOf title content cat).data
              = ((title ++ " " ++ content ++ " " ++ cat).data).map Char.toLower from rfl,
            String.data_append]
      _ = ((title ++ " " ++ content ++ " ").data.map Char.toLower) ++
            (cat.data.map Char.toLower) := by rw [ List.map_append]
      _ = ((title ++ " " ++ content ++ " ").data.map Char.toLower) ++ cat.data := by
          rw [show cat.data.map Char.toLower = cat.data from
            congrArg String.data (lower_of_mem_allowedTopics h)]
  rw [hdata]
  exact ⟨(title ++ " " ++ content ++ " ").data.map Char.toLower, [], by simp⟩

/-- C10: when the category argument is itself one of the ten allow-listed
keywords (as every category selectable in the submission form is), the
relevance-rejection branch of moderateBlogContent is unreachable: the
verdict never carries the relevance reason. -/
theorem c10_relevance_branch_unreachable (isProfane : String → Bool)
    (title content category : String) (h : category ∈ allowedTopics) :
    (moderateBlogContent isProfane title content category).flag_reason ≠
      some "Content is not related to fashion, beauty, or lifestyle." := by
  have hc := containsStr_fullText_category title content category h
  have hrel : (allowedTopics.any fun keyword =>
      containsStr (fullTextOf title content category) keyword) = true :=
    List.any_eq_true.mpr ⟨category, h, hc⟩
  by_cases hp : isProfane (fullTextOf title content category) = true
  · simp [moderateBlogContent, hp]
  · rw [Bool.not_eq_true] at hp
    by_cases hl : (trimStr content).length < 100
    · simp [moderateBlogContent, hp, hrel, hl]
    · simp [moderateBlogContent, hp, hrel, hl]

/-- C10 witness: with the form category shopping, an arbitrary off-topic
title and content never draw the relevance reason. -/
theorem c10_relevance_branch_unreachable_witness :
    ("shopping" ∈ allowedTopics) ∧
    (moderateBlogContent (fun _ => false) "Haul" "short note" "shopping").flag_reason ≠
      some "Content is not related to fashion, beauty, or lifestyle." :=
  ⟨by decide,
   c10_relevance_branch_unreachable (fun _ => false) "Haul" "short note" "shopping" (by decide)⟩

/-- Row of the articles table as read and written by the ModerateContent
view: the fields the moderation transitions touch. -/
structure Blog where
  id : Nat
  status : String
  flagged : Bool
  flag_reason : Option String
  deriving Repr, DecidableEq

/-- Update payload of ModerateContent handleApprove. -/
def applyApprove (b : Blog) : Blog :=
  { b with status := "published", flagged := false, flag_reason := none }

/-- Update payload of ModerateContent handleReject. -/
def applyReject (b : Blog) : Blog :=
  { b with status := "rejected", flagged := false, flag_reason := none }

/-- Update payload of ModerateContent handleFlag. -/
def applyFlag (reason : String) (b : Blog) : Blog :=
  { b with flagged := true, flag_reason := some reason }

/-- Update payload of ModerateContent handleRemoveFlag. -/
def applyRemoveFlag (b : Blog) : Blog :=
  { b with flagged := false, flag_reason := none }

/-- Outcome of the awaited persistence write inside a handler. -/
inductive WriteResult where
  | ok : WriteResult
  | err (msg : String) : WriteResult
  deriving Repr, DecidableEq

/-- Observable outcome of a ModerateContent handler run: the local blog list
it leaves behind, the text it writes to the developer console, and the text
it renders in the moderator view. The component keeps no error state and its
markup renders no error text, so every path below leaves uiMessage empty:
the only output on the error path is the console.error log. -/
structure HandlerEffect where
  blogs : List Blog
  consoleLog : Option String
  uiMessage : Option String
  deriving Repr, DecidableEq

/-- ModerateContent handleApprove: on success update the local blog list, on
error leave it alone and write the error text to the console only. -/
def handleApprove (w : WriteResult) (blogs : List Blog) (id : Nat) : HandlerEffect :=
  match w with
  | .ok => { blogs := blogs.map fun b => if b.id = id then applyApprove b else b,
             consoleLog := none, uiMessage := none }
  | .err e => { blogs := blogs, consoleLog := some ("Error approving blog: " ++ e),
                uiMessage := none }

/-- ModerateContent handleReject. -/
def handleReject (w : WriteResult) (blogs : List Blog) (id : Nat) : HandlerEffect :=
  match w with
  | .ok => { blogs := blogs.map fun b => if b.id = id then applyReject b else b,
             consoleLog := none, uiMessage := none }
  | .err e => { blogs := blogs, consoleLog := some ("Error rejecting blog: " ++ e),
                uiMessage := none }

/-- ModerateContent handleFlag, with its guard: no selected blog or a
whitespace-only reason makes it return without any write. -/
def handleFlag (w : WriteResult) (blogs : List Blog) (selectedBlogId : Option Nat)
    (flagReason : String) : HandlerEffect :=
  match selectedBlogId with
  | none => { blogs := blogs, consoleLog := none, uiMessage := none }
  | some id =>
    if trimStr flagReason = "" then { blogs := blogs, consoleLog := none, uiMessage := none }
    else
      match w with
      | .ok => { blogs := blogs.map fun b => if b.id = id then applyFlag flagReason b else b,
                 consoleLog := none, uiMessage := none }
      | .err e => { blogs := blogs, consoleLog := some ("Error flagging blog: " ++ e),
                    uiMessage := none }

/-- ModerateContent handleRemoveFlag. -/
def handleRemoveFlag (w : WriteResult) (blogs : List Blog) (id : Nat) : HandlerEffect :=
  match w with
  | .ok => { blogs := blogs.map fun b => if b.id = id then applyRemoveFlag b else b,
             consoleLog := none, uiMessage := none }
  | .err e => { blogs := blogs, consoleLog := some ("Error removing flag: " ++ e),
                uiMessage := none }

/-- Row fields touched by handleApprove in AdminUpload.tsx. -/
structure AdminBlog where
  status : String
  date : String
  flagged : Bool
  flag_reason : Option String
  deriving Repr, DecidableEq

/-- Update payload of AdminUpload handleApprove (AdminUpload.tsx line 1139):
only status and date are written. -/
def adminUploadApprove (now : String) (b : AdminBlog) : AdminBlog :=
  { b with status := "published", date := now }

/-- Row of the user_blogs table: SubmitBlog inserts flagged and flag_reason,
and the UserBlogs admin view reads and writes approved and flagged. -/
structure UserBlog where
  approved : Bool
  flagged : Bool
  flag_reason : Option String
  deriving Repr, DecidableEq

/-- Update payload of handleFlag in the UserBlogs view (src/src/lib/supabase.ts
lines 57-70): only flagged and approved are written, flag_reason is untouched. -/
def userBlogsFlag (b : UserBlog) : UserBlog :=
  { b with flagged := true, approved := false }

/-- True when an optional reason is a non-empty string. -/
def reasonNonempty : Option String → Bool
  | none => false
  | some r => decide (r ≠ "")

/-- Flag invariant on a flagged marker and its reason: flagged iff the
reason is a non-empty string, and an unflagged row carries no reason. -/
def flagInvFields (flagged : Bool) (reason : Option String) : Prop :=
  (flagged = true ↔ reasonNonempty reason = true) ∧
  (flagged = false → reason = none)

instance (f : Bool) (r : Option String) : Decidable (flagInvFields f r) :=
  inferInstanceAs (Decidable ((f = true ↔ reasonNonempty r = true) ∧ (f = false → r = none)))

/-- Flag invariant on a moderated blog row. -/
def flagInv (b : Blog) : Prop := flagInvFields b.flagged b.flag_reason

instance (b : Blog) : Decidable (flagInv b) :=
  inferInstanceAs (Decidable (flagInvFields b.flagged b.flag_reason))

/-- The same invariant on a user_blogs row. -/
def flagInvU (b : UserBlog) : Prop := flagInvFields b.flagged b.flag_reason

instance (b : UserBlog) : Decidable (flagInvU b) :=
  inferInstanceAs (Decidable (flagInvFields b.flagged b.flag_reason))

/-- Submission states reachable in the ModerateContent state machine: created
by the screener or directly published by an administrator, then transformed
by the moderator transitions, with the handleFlag guard requiring a
non-blank reason and the UI offering Flag only on unflagged rows. -/
inductive Reachable : Blog → Prop where
  | screened (isProfane : String → Bool) (title content category : String) (id : Nat) :
      Reachable { id := id,
                  status := (moderateBlogContent isProfane title content category).status,
                  flagged := (moderateBlogContent isProfane title content category).flagged,
                  flag_reason := (moderateBlogContent isProfane title content category).flag_reason }
  | adminCreated (id : Nat) :
      Reachable { id := id, status := "published", flagged := false, flag_reason := none }
  | approve {b : Blog} : Reachable b → Reachable (applyApprove b)
  | reject {b : Blog} : Reachable b → Reachable (applyReject b)
  | flag {b : Blog} (reason : String) : Reachable b → b.flagged = false →
      trimStr reason ≠ "" → Reachable (applyFlag reason b)
  | unflag {b : Blog} : Reachable b → Reachable (applyRemoveFlag b)

/-- The screener only ever returns one of four verdict records. -/
theorem moderate_cases (isProfane : String → Bool) (title content category : String) :
    moderateBlogContent isProfane title content category =
        { status := "rejected", flagged := true,
          flag_reason := some "Profanity or inappropriate language detected." } ∨
    moderateBlogContent isProfane title content category =
        { status := "rejected", flagged := true,
          flag_reason := some "Content is not related to fashion, beauty, or lifestyle." } ∨
    moderateBlogContent isProfane title content category =
        { status := "rejected", flagged := true,
          flag_reason := some "Content too short or lacks substance." } ∨
    moderateBlogContent isProfane title content category =
        { status := "pending", flagged := false, flag_reason := none } := by
  unfold moderateBlogContent
  by_cases hp : isProfane (fullTextOf title content category) = true
  · simp [hp]
  · rw [Bool.not_eq_true] at hp
    by_cases hr : (allowedTopics.any fun keyword =>
        containsStr (fullTextOf title content category) keyword) = true
    · by_cases hl : (trimStr content).length < 100
      · simp [hp, hr, hl]
      · simp [hp, hr, hl]
    · rw [Bool.not_eq_true] at hr
      simp [hp, hr]

/-- A non-blank trim forces a non-empty string. -/
theorem ne_empty_of_trim_ne_empty {r : String} (h : trimStr r ≠ "") : r ≠ "" := by
  intro he
  exact h (by rw [he]; rfl)

/-- C4 counterexample: AdminUpload handleApprove writes only status and date,
so approving a flagged submission there leaves flagged true and the reason in
place, refuting that every Approve call site yields flagged false and a null
reason. -/
theorem c4_admin_upload_keeps_flag :
    (adminUploadApprove "2026-02-03"
      { status := "pending", date := "2026-02-01", flagged := true,
        flag_reason := some "spam" }).flagged = true ∧
    (adminUploadApprove "2026-02-03"
      { status := "pending", date := "2026-02-01", flagged := true,
        flag_reason := some "spam" }).flag_reason = some "spam" := by
  decide

/-- C4 amended: the ModerateContent Approve yields status published, flagged
false and a null reason from any starting state, while the AdminUpload
Approve writes status published and the date only, leaving flagged and
flag_reason unchanged. -/
theorem c4_approve_effects (b : Blog) (ab : AdminBlog) (now : String) :
    applyApprove b =
      { id := b.id, status := "published", flagged := false, flag_reason := none } ∧
    (adminUploadApprove now ab).status = "published" ∧
    (adminUploadApprove now ab).flagged = ab.flagged ∧
    (adminUploadApprove now ab).flag_reason = ab.flag_reason :=
  ⟨rfl, rfl, rfl, rfl⟩

/-- C5 counterexample: the UserBlogs Flag implementation sets flagged true
without writing any flag_reason, so flagging a pending unflagged row there
breaks the invariant that flagged rows carry a non-empty reason. -/
theorem c5_user_blogs_flag_breaks_invariant :
    ¬ flagInvU (userBlogsFlag { approved := false, flagged := false, flag_reason := none }) := by
  decide

/-- C5 amended: every state reachable from a screener-created or
admin-created initial state via the ModerateContent transitions satisfies
the invariant: flagged iff flag_reason is a non-empty string, and an
unflagged row carries a null reason (the UserBlogs Flag implementation does
not preserve this, see the counterexample). -/
theorem c5_reachable_flag_invariant (b : Blog) (h : Reachable b) : flagInv b := by
  induction h with
  | screened isProfane title content category id =>
      rcases moderate_cases isProfane title content category with hm | hm | hm | hm <;>
        rw [hm] <;> exact of_decide_eq_true rfl
  | adminCreated id => exact of_decide_eq_true rfl
  | approve _ _ => exact of_decide_eq_true rfl
  | reject _ _ => exact of_decide_eq_true rfl
  | flag reason _ _ htrim _ =>
      refine ⟨?_, by simp [applyFlag, flagInvFields]⟩
      simp [applyFlag, flagInvFields, reasonNonempty, ne_empty_of_trim_ne_empty htrim]
  | unflag _ _ => exact of_decide_eq_true rfl

/-- C5 witness: the invariant holds after flagging an admin-created post with
the reason spam. -/
theorem c5_reachable_flag_invariant_witness :
    flagInv (applyFlag "spam"
      { id := 1, status := "published", flagged := false, flag_reason := none }) :=
  c5_reachable_flag_invariant _
    (Reachable.flag "spam" (Reachable.adminCreated 1) rfl (by decide))

/-- C6: Flag writes only flagged and flag_reason, Unflag writes only their
reset, so neither changes status, and Flag followed by Unflag restores an
unflagged row with a null reason and the status it had before the Flag. -/
theorem c6_flag_unflag_frame (b : Blog) (reason : String) :
    (applyFlag reason b).status = b.status ∧
    (applyRemoveFlag b).status = b.status ∧
    applyRemoveFlag (applyFlag reason b) =
      { id := b.id, status := b.status, flagged := false, flag_reason := none } :=
  ⟨rfl, rfl, rfl⟩

/-- C9: the ModerateContent Approve is idempotent at the data level. -/
theorem c9_approve_idempotent (b : Blog) :
    applyApprove (applyApprove b) = applyApprove b :=
  rfl

/-- Outcome of the awaited screener race in submitFormToSupabase: either the
screener verdict, or the rejection of the race by error or 5 second timeout. -/
inductive ScreenOutcome where
  | ok (r : ModerationResult) : ScreenOutcome
  | failed : ScreenOutcome
  deriving Repr

/-- The moderationResult value used by submitFormToSupabase (SubmitBlog.tsx
lines 159-185): initialized to the safe default and replaced only when the
screener race succeeds. -/
def moderationOutcome : ScreenOutcome → ModerationResult
  | .failed => { status := "pending", flagged := false, flag_reason := none }
  | .ok r => r

/-- The status, flagged and flag_reason fields of the blogPost insert
(SubmitBlog.tsx lines 195-197), with the JS falsy-or coercions. -/
def storedVerdict (o : ScreenOutcome) : ModerationResult :=
  { status := if (moderationOutcome o).status = "" then "pending"
      else (moderationOutcome o).status,
    flagged := (moderationOutcome o).flagged,
    flag_reason := match (moderationOutcome o).flag_reason with
      | some "" => none
      | x => x }

/-- C7: when the screener invocation fails or times out, the submission is
stored with exactly the safe default verdict, in particular never as
published and never as rejected. -/
theorem c7_screen_failure_safe_default :
    storedVerdict ScreenOutcome.failed =
      { status := "pending", flagged := false, flag_reason := none } ∧
    (storedVerdict ScreenOutcome.failed).status ≠ "published" ∧
    (storedVerdict ScreenOutcome.failed).status ≠ "rejected" := by
  refine ⟨rfl, ?_, ?_⟩ <;> decide

/-- C8 counterexample: on a failed write, none of the four ModerateContent
handlers renders any textual message in the moderator view (the component
has no error state and its markup shows no error text), refuting the claim
that the error is surfaced to the moderator as a textual message. -/
theorem c8_error_not_shown_to_moderator :
    (handleApprove (WriteResult.err "network down")
      [{ id := 1, status := "pending", flagged := false, flag_reason := none }] 1).uiMessage
      = none ∧
    (handleReject (WriteResult.err "network down")
      [{ id := 1, status := "pending", flagged := false, flag_reason := none }] 1).uiMessage
      = none ∧
    (handleFlag (WriteResult.err "network down")
      [{ id := 1, status := "pending", flagged := false, flag_reason := none }]
      (some 1) "spam").uiMessage = none ∧
    (handleRemoveFlag (WriteResult.err "network down")
      [{ id := 1, status := "pending", flagged := false, flag_reason := none }] 1).uiMessage
      = none := by
  decide

/-- C8 amended: when the persistence write of any of the four moderator
transitions returns an error, the local blog list is left unchanged (the
update happens only after a successful write) and the error text goes only
to the developer console log; no message is displayed to the moderator. -/
theorem c8_write_error_console_log_only (e : String) (blogs : List Blog) (id : Nat)
    (reason : String) (hr : trimStr reason ≠ "") :
    (handleApprove (WriteResult.err e) blogs id).blogs = blogs ∧
    (handleApprove (WriteResult.err e) blogs id).consoleLog =
      some ("Error approving blog: " ++ e) ∧
    (handleApprove (WriteResult.err e) blogs id).uiMessage = none ∧
    (handleReject (WriteResult.err e) blogs id).blogs = blogs ∧
    (handleReject (WriteResult.err e) blogs id).consoleLog =
      some ("Error rejecting blog: " ++ e) ∧
    (handleReject (WriteResult.err e) blogs id).uiMessage = none ∧
    (handleFlag (WriteResult.err e) blogs (some id) reason).blogs = blogs ∧
    (handleFlag (WriteResult.err e) blogs (some id) reason).consoleLog =
      some ("Error flagging blog: " ++ e) ∧
    (handleFlag (WriteResult.err e) blogs (some id) reason).uiMessage = none ∧
    (handleRemoveFlag (WriteResult.err e) blogs id).blogs = blogs ∧
    (handleRemoveFlag (WriteResult.err e) blogs id).consoleLog =
      some ("Error removing flag: " ++ e) ∧
    (handleRemoveFlag (WriteResult.err e) blogs id).uiMessage = none := by
  refine ⟨rfl, rfl, rfl, rfl, rfl, rfl, ?_, ?_, ?_, rfl, rfl, rfl⟩ <;>
    simp [handleFlag, hr]

/-- C8 witness: a failed approve and a failed flag on a concrete one-element
list leave it unchanged, log the error text to the console, and show nothing
in the moderator view. -/
theorem c8_write_error_console_log_only_witness :
    trimStr "spam" ≠ "" ∧
    (handleApprove (WriteResult.err "network down")
      [{ id := 1, status := "pending", flagged := false, flag_reason := none }] 1).blogs =
      [{ id := 1, status := "pending", flagged := false, flag_reason := none }] ∧
    (handleFlag (WriteResult.err "network down")
      [{ id := 1, status := "pending", flagged := false, flag_reason := none }]
      (some 1) "spam").consoleLog = some ("Error flagging blog: " ++ "network down") ∧
    (handleFlag (WriteResult.err "network down")
      [{ id := 1, status := "pending", flagged := false, flag_reason := none }]
      (some 1) "spam").uiMessage = none := by
  refine ⟨by decide, ?_, ?_, ?_⟩
  · exact (c8_write_error_console_log_only "network down"
      [{ id := 1, status := "pending", flagged := false, flag_reason := none }] 1 "spam"
      (by decide)).1
  · exact (c8_write_error_console_log_only "network down"
      [{ id := 1, status := "pending", flagged := false, flag_reason := none }] 1 "spam"
      (by decide)).2.2.2.2.2.2.2.1
  · exact (c8_write_error_console_log_only "network down"
      [{ id := 1, status := "pending", flagged := false, flag_reason := none }] 1 "spam"
      (by decide)).2.2.2.2.2.2.2.2.1

end Avoure
